import Mathlib

/-!
Shallow embedding of the `httputil` middleware package (readmill/httputil).

The embedding follows `src/httputil.go`; where the second source variant
(`src/unnamed/part_000`) differs, the variant's definition carries a `Doc`
suffix. Go machine state that the claims observe (the underlying
`http.ResponseWriter`, the request, the handler configuration) is made
explicit; channels are modelled separately for the publishing claims.
-/

namespace Httputil

/-- A header map. Go's `http.Header` is `map[string][]string`; the code only
ever reads the first value of a key (`h[0]` and `Header.Get`), so each key is
modelled with its first value. `Set` replaces the value of an existing key. -/
abbrev Headers := List (String × String)

/-- `Header.Set k v` / map assignment: replace the first binding of `k`,
or append a new binding. -/
def setH : Headers → String → String → Headers
  | [], k, v => [(k, v)]
  | (k2, v2) :: rest, k, v =>
      if k2 = k then (k, v) :: rest else (k2, v2) :: setH rest k v

/-- Lookup of a key in a header map (`h, ok := m[k]` — `some` iff present). -/
def getH (hs : Headers) (k : String) : Option String :=
  (hs.find? (fun p => p.1 = k)).map Prod.snd

/-- An HTTP request, `*http.Request`, restricted to the fields this package
reads: method, request URI, protocol, content length, remote address and the
header map. -/
structure Request where
  method : String
  requestURI : String
  proto : String
  contentLength : Int
  remoteAddr : String
  headers : Headers
deriving Repr, DecidableEq

/-- `r.Header.Get(k)`: the first value for `k`, or `""` when absent. -/
def reqGet (r : Request) (k : String) : String :=
  (getH r.headers k).getD ""

/-- The `Handler` struct: fixed response content type, accepted request MIME
type (`""` = unset) and allowed methods. Go's `allow []string` distinguishes
the nil slice from an empty non-nil slice, so it is modelled as
`Option (List String)` with `none` for nil. The wrapped inner handler is
passed separately to the functions that run it. -/
structure Handler where
  contentType : String
  accept : String
  allow : Option (List String)
deriving Repr, DecidableEq

/-- `NewHandler(inner, ctype)`: accept unset, allow nil. -/
def NewHandler (ctype : String) : Handler :=
  { contentType := ctype, accept := "", allow := none }

/-- `(*Handler).Accept(mime)`. -/
def Accept (h : Handler) (mime : String) : Handler :=
  { h with accept := mime }

/-- `(*Handler).Allow(methods...)`. The variadic parameter is a Go slice:
a call with zero arguments passes the nil slice, modelled as `none`; a call
spreading an explicit (possibly empty) slice passes it non-nil, `some`. -/
def Allow (h : Handler) (methods : Option (List String)) : Handler :=
  { h with allow := methods }

/-- The observable state of the wrapping `ResponseWriter` together with the
underlying writer it forwards to: the captured `StatusCode` (0 = unset), the
handler's `ContentType`, and — for the underlying `http.ResponseWriter` —
its header map, the bytes written, and the list of statuses forwarded to its
`WriteHeader` (so that forwarding is observable). -/
structure RespState where
  statusCode : Nat
  contentType : String
  headers : Headers
  body : String
  forwarded : List Nat
deriving Repr, DecidableEq

/-- `(*ResponseWriter).HasStatus`. -/
def HasStatus (rw : RespState) : Bool :=
  rw.statusCode != 0

/-- `(*ResponseWriter).WriteHeader(status)`: records the given status
(unconditionally overwriting the captured value) and forwards the call to
the underlying writer. -/
def WriteHeader (rw : RespState) (status : Nat) : RespState :=
  { rw with statusCode := status, forwarded := rw.forwarded ++ [status] }

/-- `(*ResponseWriter).Write(b)`: forwards to the underlying writer. -/
def Write (rw : RespState) (b : String) : RespState :=
  { rw with body := rw.body ++ b }

/-- `(*ResponseWriter).Header().Set(k, v)` — the header map is the
underlying writer's. -/
def HeaderSet (rw : RespState) (k v : String) : RespState :=
  { rw with headers := setH rw.headers k v }

/-- One step an inner handler can take against the decorated writer, plus an
abnormal termination (a Go `panic`, caught by the wrapper's `recover`). -/
inductive Op where
  | writeHeader (status : Nat)
  | write (b : String)
  | setHeader (k v : String)
  | panicWith (msg : String)
deriving Repr, DecidableEq

/-- Run an inner handler's steps; stops at a panic, returning the writer state
at that point and the panic value. -/
def runOps : List Op → RespState → RespState × Option String
  | [], rw => (rw, none)
  | Op.writeHeader s :: rest, rw => runOps rest (WriteHeader rw s)
  | Op.write b :: rest, rw => runOps rest (Write rw b)
  | Op.setHeader k v :: rest, rw => runOps rest (HeaderSet rw k v)
  | Op.panicWith m :: _, rw => (rw, some m)

/-- The admission type check of `serveRequest` in `src/httputil.go`:
`ctype := r.Header.Get("Content-Type"); ctype != "" && h.accept != "" && ctype != h.accept`. -/
def typeCheckRejects (h : Handler) (r : Request) : Bool :=
  let ctype := reqGet r "Content-Type"
  ctype != "" && h.accept != "" && ctype != h.accept

/-- The admission type check of `serveRequest` in `src/unnamed/part_000`:
`mime := r.Header.Get("Accept"); mime != "" && mime != "*/*" && h.accept != "" && mime != h.accept`. -/
def typeCheckRejectsDoc (h : Handler) (r : Request) : Bool :=
  let mime := reqGet r "Accept"
  mime != "" && mime != "*/*" && h.accept != "" && mime != h.accept

/-- The method-check stage of `serveRequest` (identical in both variants):
if `h.allow != nil` and the method is not in the list, set the `Allow`
header to the comma-joined list and answer 405; otherwise invoke the inner
handler. Result: final writer state, panic value of the inner handler (if
any), and whether the inner handler was invoked. -/
def methodStage (h : Handler) (inner : Request → List Op) (rw : RespState)
    (r : Request) : RespState × Option String × Bool :=
  match h.allow with
  | some allow =>
      if allow.contains r.method then
        let res := runOps (inner r) rw
        (res.1, res.2, true)
      else
        (WriteHeader (HeaderSet rw "Allow" (String.intercalate ", " allow)) 405,
         none, false)
  | none =>
      let res := runOps (inner r) rw
      (res.1, res.2, true)

/-- `(*Handler).serveRequest` of `src/httputil.go`: the Content-Type
admission check runs first and, on rejection, sets the `Accept` header and
answers 406 without invoking the inner handler; otherwise the method stage
runs. -/
def serveRequest (h : Handler) (inner : Request → List Op) (rw : RespState)
    (r : Request) : RespState × Option String × Bool :=
  if typeCheckRejects h r then
    (WriteHeader (HeaderSet rw "Accept" h.accept) 406, none, false)
  else methodStage h inner rw r

/-- `(*Handler).serveRequest` of `src/unnamed/part_000`: same shape, but the
check consults the request's `Accept` header and exempts the wildcard. -/
def serveRequestDoc (h : Handler) (inner : Request → List Op) (rw : RespState)
    (r : Request) : RespState × Option String × Bool :=
  if typeCheckRejectsDoc h r then
    (WriteHeader (HeaderSet rw "Accept" h.accept) 406, none, false)
  else methodStage h inner rw r

/-- An `Access` event, the immutable record of one answered request.
`time` and `duration` stand for `time.Time` / `time.Duration` instants,
abstracted as naturals (the claims do not constrain clock values). -/
structure Access where
  remoteAddr : String
  time : Nat
  method : String
  requestURI : String
  proto : String
  statusCode : Nat
  contentLength : Int
  referer : String
  userAgent : String
  duration : Nat
deriving Repr, DecidableEq

/-- The host result of `net.SplitHostPort(s)` for the common `host:port`
shape: the text before the last colon, or an error (`none`) when the string
has no colon. (IPv6 bracket/zone handling of the stdlib function is not
exercised by this package's claims.) -/
def splitHostPort (s : String) : Option String :=
  let rev := s.data.reverse
  if rev.contains ':' then some (String.mk ((rev.dropWhile (fun c => c != ':')).tail.reverse))
  else none

/-- `logRequest(r, statusCode, delta)`: derives the referer / remote address /
user agent (with `"-"` and `"?"` fallbacks) and sends one freshly built
`Access` to every registered channel, in registration order. The registry is
a list of channel identifiers; the result pairs each channel with the value
sent to it. `now` stands for `time.Now()`. -/
def logRequest (notify : List Nat) (r : Request) (statusCode : Nat)
    (delta : Nat) (now : Nat) : List (Nat × Access) :=
  let referer := match getH r.headers "Referer" with
    | some v => v
    | none => "-"
  let remoteAddr := match getH r.headers "X-Forwarded-For" with
    | some v => v
    | none => match splitHostPort r.remoteAddr with
      | none => "?"
      | some host => host
  let userAgent := match getH r.headers "User-Agent" with
    | some v => v
    | none => "-"
  notify.map (fun ch =>
    (ch, { remoteAddr := remoteAddr, time := now, method := r.method,
           requestURI := r.requestURI, proto := r.proto,
           statusCode := statusCode, contentLength := r.contentLength,
           referer := referer, userAgent := userAgent, duration := delta }))

/-- The fresh decorated writer built at the top of `ServeHTTP`:
`rw := &ResponseWriter{inner: w, ContentType: h.contentType}` followed by
`rw.Header().Set("Content-Type", h.contentType)` (the underlying writer's
headers start empty). -/
def initRW (h : Handler) : RespState :=
  HeaderSet { statusCode := 0, contentType := h.contentType, headers := [],
              body := "", forwarded := [] } "Content-Type" h.contentType

/-- The recover branch of `ServeHTTP`'s deferred function: when a panic was
recovered and no status was captured yet, force 500 (also forwarded to the
underlying writer); otherwise leave the writer unchanged. -/
def recoverStep (rw : RespState) (pan : Option String) : RespState :=
  match pan with
  | some _ => if HasStatus rw then rw else WriteHeader rw 500
  | none => rw

/-- The diagnostic record written to the operator log by the recover branch
(`log.Printf("panic: %v", e)` together with `debug.PrintStack()`). -/
def diagOf (pan : Option String) : List String :=
  match pan with
  | some m => ["panic: " ++ m]
  | none => []

/-- The status handed to `logRequest` by the deferred function:
`rw.StatusCode` when `rw.HasStatus()`, else `http.StatusOK` (200). -/
def effectiveStatus (rw : RespState) : Nat :=
  if HasStatus rw then rw.statusCode else 200

/-- The elapsed duration visible to the deferred function: `delta` is only
assigned after `serveRequest` returns normally, so it is still zero when a
panic unwinds past the assignment. `d` stands for the measured
`time.Since(t)`. -/
def deltaOf (pan : Option String) (d : Nat) : Nat :=
  match pan with
  | some _ => 0
  | none => d

/-- What `ServeHTTP` leaves behind, all of it observable in the Go run:
final writer state, the writer state when `serveRequest` returned or
panicked, the recovered panic value, whether the inner handler was invoked,
the operator-log diagnostics, the status passed to `logRequest`, and the
events sent to the registered channels. -/
structure ServeResult where
  rw : RespState
  preRecover : RespState
  panicked : Option String
  innerInvoked : Bool
  diag : List String
  loggedStatus : Nat
  events : List (Nat × Access)
deriving Repr, DecidableEq

/-- `(*Handler).ServeHTTP` of `src/httputil.go`: build the decorated writer,
run `serveRequest`, and — in the deferred function, which runs exactly once
whether or not a panic unwound — recover, optionally force 500, emit the
diagnostic, and call `logRequest` once with the effective status. -/
def ServeHTTP (h : Handler) (inner : Request → List Op) (r : Request)
    (notify : List Nat) (now d : Nat) : ServeResult :=
  let sres := serveRequest h inner (initRW h) r
  { rw := recoverStep sres.1 sres.2.1,
    preRecover := sres.1,
    panicked := sres.2.1,
    innerInvoked := sres.2.2,
    diag := diagOf sres.2.1,
    loggedStatus := effectiveStatus (recoverStep sres.1 sres.2.1),
    events := logRequest notify r (effectiveStatus (recoverStep sres.1 sres.2.1))
      (deltaOf sres.2.1 d) now }

/-- Lower-case hexadecimal digit, as used by `strconv`'s escapes. -/
def hexDigit (n : Nat) : Char :=
  if n < 10 then Char.ofNat (48 + n) else Char.ofNat (87 + n)

/-- `n` rendered as exactly `w` lower-case hex digits (most significant
first), the shape of `strconv`'s `\xHH`, `\uHHHH`, `\UHHHHHHHH` payloads. -/
def hexPad : Nat → Nat → String
  | 0, _ => ""
  | w + 1, n => hexPad w (n / 16) ++ String.singleton (hexDigit (n % 16))

/-- One rune's contribution to `strconv.QuoteToASCII`: quote and backslash
are backslash-escaped; printable ASCII passes through; the named control
escapes come next; remaining control bytes use `\xHH`; everything else uses
`\uHHHH` or `\UHHHHHHHH`. -/
def quoteCharToASCII (c : Char) : String :=
  if c = '"' then "\\\""
  else if c = '\\' then "\\\\"
  else if 0x20 ≤ c.toNat ∧ c.toNat < 0x7f then String.singleton c
  else if c = '\x07' then "\\a"
  else if c = '\x08' then "\\b"
  else if c = '\x0c' then "\\f"
  else if c = '\n' then "\\n"
  else if c = '\r' then "\\r"
  else if c = '\t' then "\\t"
  else if c = '\x0b' then "\\v"
  else if c.toNat < 0x20 ∨ c.toNat = 0x7f then "\\x" ++ hexPad 2 c.toNat
  else if c.toNat < 0x10000 then "\\u" ++ hexPad 4 c.toNat
  else "\\U" ++ hexPad 8 c.toNat

/-- `strconv.QuoteToASCII(s)`: a double-quoted, ASCII-only escaped form. -/
def goQuoteToASCII (s : String) : String :=
  "\"" ++ String.join (s.data.map quoteCharToASCII) ++ "\""

/-- One character's contribution to `html.EscapeString`. -/
def escapeHTMLChar (c : Char) : String :=
  if c = '&' then "&amp;"
  else if c = '\'' then "&#39;"
  else if c = '<' then "&lt;"
  else if c = '>' then "&gt;"
  else if c = '"' then "&#34;"
  else String.singleton c

/-- `html.EscapeString(s)`. -/
def htmlEscapeString (s : String) : String :=
  String.join (s.data.map escapeHTMLChar)

/-- `http.Error(w, err, code)` as observed through the decorated writer:
sets the plain-text content type headers, sets the status via `WriteHeader`
(so the wrapper captures it), and writes `err` followed by a newline. -/
def httpError (rw : RespState) (err : String) (code : Nat) : RespState :=
  Write (WriteHeader
    (HeaderSet (HeaderSet rw "Content-Type" "text/plain; charset=utf-8")
      "X-Content-Type-Options" "nosniff") code)
    (err ++ "\n")

/-- `httputil.Error(w, err, code)` of `src/httputil.go`, for the case where
`w` is this package's `*ResponseWriter` (the type assertion succeeds): the
message is wrapped according to the writer's configured `ContentType` —
a JSON object with an `error` field (message quoted by
`strconv.QuoteToASCII`), HTML-entity-escaped text, or an `"error: "` prefix
for `text/plain` and every other value — and then passed to `http.Error`
with the given code. -/
def Error (rw : RespState) (err : String) (code : Nat) : RespState :=
  let msg :=
    if rw.contentType = "application/json" then
      "\x7b\"error\":" ++ goQuoteToASCII err ++ "\x7d"
    else if rw.contentType = "text/html" then htmlEscapeString err
    else "error: " ++ err
  httpError rw msg code

/-- A Go channel carrying `*Access`, seen from a sender: its buffer capacity
and how many values currently sit unread in the buffer. No receiver is
modelled, matching a subscriber that is not (currently) reading. -/
structure Chan where
  cap : Nat
  queued : Nat
deriving Repr, DecidableEq

/-- One Go channel send `ch <- v` with no active receiver: it completes
immediately when the buffer has room and otherwise blocks (`none`). -/
def chanSend (c : Chan) : Option Chan :=
  if c.queued < c.cap then some { c with queued := c.queued + 1 } else none

/-- The sends performed by `logRequest`'s loop `for _, ch := range notify
\x7b ch <- &Access\x7b...\x7d \x7d`, under Go channel semantics: the loop
completes only if every send finds buffer room; a single full channel with
no receiver blocks it (and with it the deferred function and thus the
completion of `ServeHTTP`). -/
def broadcast : List Chan → Option (List Chan)
  | [] => some []
  | c :: rest =>
      match chanSend c with
      | none => none
      | some c2 => (broadcast rest).map (fun cs => c2 :: cs)

/-- The default sink registered by `init()`: `make(chan *Access, 1)`,
initially empty, drained by a dedicated consumer goroutine. -/
def defaultSink : Chan :=
  { cap := 1, queued := 0 }

/-! ### Concrete fixtures used to instantiate the theorems -/

/-- An inner handler that does nothing. -/
def innerNop : Request → List Op := fun _ => []

/-- An inner handler that immediately panics. -/
def innerPanicBoom : Request → List Op := fun _ => [Op.panicWith "boom"]

/-- A plain GET request with no headers. -/
def rPlain : Request :=
  { method := "GET", requestURI := "/idx", proto := "HTTP/1.1",
    contentLength := 0, remoteAddr := "10.0.0.1:443", headers := [] }

/-- A DELETE request with no headers. -/
def rDelete : Request :=
  { rPlain with method := "DELETE" }

/-- A DELETE request declaring `Content-Type: text/plain`. -/
def rDeleteCT : Request :=
  { rPlain with
      method := "DELETE"
      headers := [("Content-Type", "text/plain")] }

/-- A DELETE request declaring `Content-Type: text/xml`. -/
def rDeleteXml : Request :=
  { rPlain with method := "DELETE", headers := [("Content-Type", "text/xml")] }

/-- A GET request declaring the wildcard `Content-Type: */*`. -/
def rWildCT : Request :=
  { rPlain with headers := [("Content-Type", "*/*")] }

/-- A GET request declaring the wildcard `Accept: */*`. -/
def rWildAccept : Request :=
  { rPlain with headers := [("Accept", "*/*")] }

/-- A handler with no constraints configured. -/
def hPlain : Handler := NewHandler ""

/-- A JSON handler that only accepts `application/json`. -/
def hJson : Handler := Accept (NewHandler "application/json") "application/json"

/-- A JSON handler that also only allows GET. -/
def hJsonGet : Handler := Allow hJson (some ["GET"])

/-- A handler allowing only GET and POST. -/
def hGetPost : Handler := Allow (NewHandler "") (some ["GET", "POST"])

/-- A handler whose `Allow` was called by spreading an empty non-nil slice. -/
def hEmptyAllow : Handler := Allow (NewHandler "") (some [])

/-- A handler whose `Allow` was called with zero arguments (nil slice). -/
def hNilAllow : Handler := Allow (NewHandler "") none

/-- A fresh writer state with no configured content type. -/
def rwEmpty : RespState :=
  { statusCode := 0, contentType := "", headers := [], body := "",
    forwarded := [] }

/-- A fresh writer state configured for `application/json`. -/
def rwJson : RespState := { rwEmpty with contentType := "application/json" }

/-- A fresh writer state configured for `text/html`. -/
def rwHtml : RespState := { rwEmpty with contentType := "text/html" }

/-- A fresh writer state configured for `text/plain`. -/
def rwPlainCT : RespState := { rwEmpty with contentType := "text/plain" }

/-! ### Helper lemmas -/

theorem logRequest_map_fst (notify : List Nat) (r : Request) (s delta now : Nat) :
    (logRequest notify r s delta now).map Prod.fst = notify := by
  simp [logRequest, List.map_map, Function.comp_def]

theorem logRequest_statusCode (notify : List Nat) (r : Request) (s delta now : Nat) :
    ∀ e ∈ logRequest notify r s delta now, e.2.statusCode = s := by
  intro e he
  simp only [logRequest, List.mem_map] at he
  obtain ⟨ch, _, rfl⟩ := he
  rfl

theorem effectiveStatus_of_ne_zero (rw : RespState) (h0 : rw.statusCode ≠ 0) :
    effectiveStatus rw = rw.statusCode := by
  simp [effectiveStatus, HasStatus, bne_iff_ne, h0]

theorem recoverStep_some_statusCode (rw : RespState) (m : String) :
    (recoverStep rw (some m)).statusCode =
      if rw.statusCode = 0 then 500 else rw.statusCode := by
  by_cases h0 : rw.statusCode = 0 <;>
    simp [recoverStep, HasStatus, bne_iff_ne, WriteHeader, h0]

/-! ### Claims -/

/-- Claim C1: for every request handled by `ServeHTTP` — whatever the handler
configuration, the inner handler's behavior (normal return or panic), and
whether the admission checks reject the request — exactly one Access event is
broadcast per registered channel: the channels receiving events are exactly
the registered channels, each once, in order. -/
theorem c1_one_event_per_channel (h : Handler) (inner : Request → List Op)
    (r : Request) (notify : List Nat) (now d : Nat) :
    ((ServeHTTP h inner r notify now d).events.map Prod.fst) = notify := by
  simp only [ServeHTTP]
  exact logRequest_map_fst ..

/-- Claim C4 (counterexample): the captured status does not stick to the
first `WriteHeader` call — after `WriteHeader 404` a later `WriteHeader 503`
leaves the captured status 503, not 404. -/
theorem c4_first_write_counterexample :
    (WriteHeader (WriteHeader
      { statusCode := 0, contentType := "", headers := [], body := "",
        forwarded := [] } 404) 503).statusCode = 503 ∧ (503 : Nat) ≠ 404 := by
  decide

/-- Claim C4 (amended): the captured `StatusCode` reflects the most recent
(last) status-setting call — after `WriteHeader c` followed by
`WriteHeader d` the captured status is `d` — while every call still forwards
to the underlying writer, in order. -/
theorem c4_last_write_wins (rw : RespState) (c d : Nat) :
    (WriteHeader (WriteHeader rw c) d).statusCode = d
    ∧ (WriteHeader (WriteHeader rw c) d).forwarded = rw.forwarded ++ [c, d] := by
  simp [WriteHeader]

/-- The admission guard accepts the request: the type check does not fire and
the method is allowed (or no method list is configured). -/
def admits (h : Handler) (r : Request) : Bool :=
  (!typeCheckRejects h r) &&
    (match h.allow with
     | none => true
     | some l => l.contains r.method)

theorem methodStage_none (h : Handler) (inner : Request → List Op)
    (rw : RespState) (r : Request) (ha : h.allow = none) :
    methodStage h inner rw r =
      ((runOps (inner r) rw).1, (runOps (inner r) rw).2, true) := by
  simp [methodStage, ha]

theorem methodStage_mem (h : Handler) (inner : Request → List Op)
    (rw : RespState) (r : Request) (l : List String) (ha : h.allow = some l)
    (hm : l.contains r.method = true) :
    methodStage h inner rw r =
      ((runOps (inner r) rw).1, (runOps (inner r) rw).2, true) := by
  unfold methodStage
  rw [ha]
  simp [show r.method ∈ l by simpa using hm]

theorem methodStage_reject (h : Handler) (inner : Request → List Op)
    (rw : RespState) (r : Request) (l : List String) (ha : h.allow = some l)
    (hm : l.contains r.method = false) :
    methodStage h inner rw r =
      (WriteHeader (HeaderSet rw "Allow" (String.intercalate ", " l)) 405,
       none, false) := by
  unfold methodStage
  rw [ha]
  simp [show r.method ∉ l by simpa using hm]

theorem serveRequest_admits (h : Handler) (inner : Request → List Op)
    (rw : RespState) (r : Request) (hadm : admits h r = true) :
    serveRequest h inner rw r =
      ((runOps (inner r) rw).1, (runOps (inner r) rw).2, true) := by
  simp only [admits, Bool.and_eq_true, Bool.not_eq_true'] at hadm
  obtain ⟨ht, hm⟩ := hadm
  rw [serveRequest, ht]
  simp only [Bool.false_eq_true, if_false]
  cases ha : h.allow with
  | none => exact methodStage_none h inner rw r ha
  | some l =>
      rw [ha] at hm
      exact methodStage_mem h inner rw r l ha hm

/-- Claim C2: if the inner handler panics during `ServeHTTP`, the final
status is forced to 500 exactly when no status had been recorded on the
observing writer before the panic (an already-recorded status is preserved),
a diagnostic record carrying the panic value is written to the process log,
and the Access event is still emitted to every registered channel with the
forced or already-set status. -/
theorem c2_panic_recovery (h : Handler) (inner : Request → List Op)
    (r : Request) (notify : List Nat) (now d : Nat) (m : String)
    (hp : (ServeHTTP h inner r notify now d).panicked = some m) :
    (ServeHTTP h inner r notify now d).rw.statusCode =
      (if (ServeHTTP h inner r notify now d).preRecover.statusCode = 0 then 500
       else (ServeHTTP h inner r notify now d).preRecover.statusCode)
    ∧ (ServeHTTP h inner r notify now d).diag = ["panic: " ++ m]
    ∧ (ServeHTTP h inner r notify now d).events.map Prod.fst = notify
    ∧ ∀ e ∈ (ServeHTTP h inner r notify now d).events,
        e.2.statusCode = (ServeHTTP h inner r notify now d).rw.statusCode := by
  simp only [ServeHTTP] at hp ⊢
  rw [hp]
  refine ⟨recoverStep_some_statusCode _ m, rfl, logRequest_map_fst .., ?_⟩
  intro e he
  rw [logRequest_statusCode notify r _ _ now e he]
  apply effectiveStatus_of_ne_zero
  rw [recoverStep_some_statusCode]
  by_cases h0 : (serveRequest h inner (initRW h) r).1.statusCode = 0 <;>
    simp [h0]

/-- Claim C3: the status placed in the Access event equals the status
recorded on the observing writer when one was recorded, and 200 otherwise;
in particular, when the request passes admission, an inner handler that sets
a (nonzero) status `S` before writing is logged with status `S`, and one
that never touches the writer is logged as 200; and every emitted event
carries exactly the logged status. -/
theorem c3_logged_status (h : Handler) (inner : Request → List Op)
    (r : Request) (notify : List Nat) (now d : Nat) (S : Nat) (bs : String)
    (hS : S ≠ 0) (hadm : admits h r = true) :
    ((ServeHTTP h inner r notify now d).panicked = none →
      (ServeHTTP h inner r notify now d).loggedStatus =
        (if (ServeHTTP h inner r notify now d).rw.statusCode = 0 then 200
         else (ServeHTTP h inner r notify now d).rw.statusCode))
    ∧ (ServeHTTP h (fun _ => [Op.writeHeader S, Op.write bs]) r notify now d).loggedStatus = S
    ∧ (ServeHTTP h (fun _ => []) r notify now d).loggedStatus = 200
    ∧ ∀ e ∈ (ServeHTTP h inner r notify now d).events,
        e.2.statusCode = (ServeHTTP h inner r notify now d).loggedStatus := by
  refine ⟨?_, ?_, ?_, ?_⟩
  · intro hp
    simp only [ServeHTTP] at hp ⊢
    rw [hp]
    simp only [recoverStep]
    by_cases h0 : (serveRequest h inner (initRW h) r).1.statusCode = 0 <;>
      simp [effectiveStatus, HasStatus, bne_iff_ne, h0]
  · simp only [ServeHTTP,
      serveRequest_admits h (fun _ => [Op.writeHeader S, Op.write bs]) (initRW h) r hadm]
    simp [runOps, recoverStep, effectiveStatus, HasStatus, bne_iff_ne,
      WriteHeader, Write, hS]
  · simp only [ServeHTTP,
      serveRequest_admits h (fun _ => []) (initRW h) r hadm]
    simp [runOps, recoverStep, effectiveStatus, HasStatus, initRW, HeaderSet]
  · intro e he
    simp only [ServeHTTP] at he ⊢
    exact logRequest_statusCode notify r _ _ now e he

/-- Claim C2 (witness): a handler whose inner handler panics with "boom" and
no prior status is logged with the forced status 500 and a diagnostic. -/
theorem c2_panic_recovery_witness :
    (ServeHTTP hPlain innerPanicBoom rPlain [7] 5 3).rw.statusCode = 500
    ∧ (ServeHTTP hPlain innerPanicBoom rPlain [7] 5 3).diag = ["panic: boom"]
    ∧ (ServeHTTP hPlain innerPanicBoom rPlain [7] 5 3).events.map Prod.fst = [7] := by
  have t := c2_panic_recovery hPlain innerPanicBoom rPlain [7] 5 3 "boom" (by decide)
  exact ⟨t.1.trans (by decide), t.2.1.trans (by decide), t.2.2.1⟩

/-- Claim C3 (witness): an inner handler that sets status 418 before writing
is logged with 418; one that never touches the writer is logged as 200. -/
theorem c3_logged_status_witness :
    (ServeHTTP hPlain (fun _ => [Op.writeHeader 418, Op.write "x"])
      rPlain [1] 0 0).loggedStatus = 418
    ∧ (ServeHTTP hPlain (fun _ => []) rPlain [1] 0 0).loggedStatus = 200 := by
  have t := c3_logged_status hPlain innerNop rPlain [1] 0 0 418 "x"
    (by decide) (by decide)
  exact ⟨t.2.1, t.2.2.1⟩

/-- Claim C5 (counterexample): `hJsonGet` has the configured allowed-methods
list `["GET"]` and `rDeleteCT`'s DELETE is not a member, yet the response
status is 406 — not 405 — and no `Allow` header is set, because the
Content-Type admission check fires first. -/
theorem c5_counterexample :
    (ServeHTTP hJsonGet innerNop rDeleteCT [] 0 0).rw.statusCode = 406
    ∧ (ServeHTTP hJsonGet innerNop rDeleteCT [] 0 0).rw.statusCode ≠ 405
    ∧ getH (ServeHTTP hJsonGet innerNop rDeleteCT [] 0 0).rw.headers "Allow" = none := by
  decide

/-- Claim C5 (amended): for every handler with a configured allowed-methods
list and every request that passes the accepted-type check (which is
evaluated first) and whose method is not a member of the list, the response
status is 405, the `Allow` header is the allowed methods joined by ", " in
configured order, and the inner handler is never invoked. -/
theorem c5_method_rejection (h : Handler) (inner : Request → List Op)
    (r : Request) (notify : List Nat) (now d : Nat) (l : List String)
    (hall : h.allow = some l) (ht : typeCheckRejects h r = false)
    (hm : l.contains r.method = false) :
    (ServeHTTP h inner r notify now d).rw.statusCode = 405
    ∧ getH (ServeHTTP h inner r notify now d).rw.headers "Allow" =
        some (String.intercalate ", " l)
    ∧ (ServeHTTP h inner r notify now d).innerInvoked = false := by
  simp only [ServeHTTP, serveRequest, ht, Bool.false_eq_true, if_false,
    methodStage_reject h inner (initRW h) r l hall hm]
  simp [recoverStep, WriteHeader, HeaderSet, initRW, setH, getH]

/-- Claim C5 (witness): allowed methods GET, POST and a DELETE request with
no declared content type: 405, `Allow: GET, POST`, inner never invoked. -/
theorem c5_method_rejection_witness :
    (ServeHTTP hGetPost innerNop rDelete [2] 1 1).rw.statusCode = 405
    ∧ getH (ServeHTTP hGetPost innerNop rDelete [2] 1 1).rw.headers "Allow" =
        some "GET, POST"
    ∧ (ServeHTTP hGetPost innerNop rDelete [2] 1 1).innerInvoked = false := by
  have t := c5_method_rejection hGetPost innerNop rDelete [2] 1 1
    ["GET", "POST"] (by decide) (by decide) (by decide)
  exact ⟨t.1, t.2.1.trans (by decide), t.2.2⟩

/-- Claim C6 (counterexample): with accepted type `application/json`, a
request declaring the wildcard `Content-Type: */*` is rejected with 406 and
the inner handler is not invoked — the claim's wildcard exemption does not
hold in `src/httputil.go`. -/
theorem c6_counterexample :
    (ServeHTTP hJson innerNop rWildCT [] 0 0).rw.statusCode = 406
    ∧ (ServeHTTP hJson innerNop rWildCT [] 0 0).innerInvoked = false := by
  decide

/-- Claim C6 (amended): in `src/httputil.go` the consulted header is the
request's `Content-Type` and there is no wildcard exemption: whenever an
accepted type is configured and the declared type is nonempty and different
(including `*/*`), the response status is 406, the `Accept` header names the
accepted type and the inner handler is never invoked; a request declaring no
type passes the check unchanged. (Only the `src/unnamed/part_000` variant,
which consults the `Accept` header, exempts the wildcard.) -/
theorem c6_type_rejection (h : Handler) (inner : Request → List Op)
    (r : Request) (notify : List Nat) (now d : Nat) (rw : RespState) :
    (h.accept ≠ "" → reqGet r "Content-Type" ≠ "" →
     reqGet r "Content-Type" ≠ h.accept →
       (ServeHTTP h inner r notify now d).rw.statusCode = 406
       ∧ getH (ServeHTTP h inner r notify now d).rw.headers "Accept" = some h.accept
       ∧ (ServeHTTP h inner r notify now d).innerInvoked = false)
    ∧ (reqGet r "Content-Type" = "" →
       serveRequest h inner rw r = methodStage h inner rw r)
    ∧ (reqGet r "Accept" = "*/*" →
       serveRequestDoc h inner rw r = methodStage h inner rw r) := by
  refine ⟨?_, ?_, ?_⟩
  · intro ha hc hd
    have ht : typeCheckRejects h r = true := by
      simp [typeCheckRejects, bne_iff_ne, ha, hc, hd]
    simp only [ServeHTTP, serveRequest, ht, if_true]
    simp [recoverStep, WriteHeader, HeaderSet, initRW, setH, getH]
  · intro hc
    simp [serveRequest, typeCheckRejects, hc]
  · intro hm
    simp [serveRequestDoc, typeCheckRejectsDoc, hm]

/-- Claim C6 (witness): a DELETE request declaring `Content-Type: text/xml`
against the JSON handler gets 406 with `Accept: application/json` and no
inner-handler invocation; and in the `part_000` variant a request declaring
`Accept: */*` passes the type check unchanged. -/
theorem c6_type_rejection_witness :
    ((ServeHTTP hJson innerNop rDeleteXml [] 0 0).rw.statusCode = 406
     ∧ getH (ServeHTTP hJson innerNop rDeleteXml [] 0 0).rw.headers "Accept" =
         some "application/json"
     ∧ (ServeHTTP hJson innerNop rDeleteXml [] 0 0).innerInvoked = false)
    ∧ serveRequestDoc hJson innerNop (initRW hJson) rWildAccept =
        methodStage hJson innerNop (initRW hJson) rWildAccept := by
  refine ⟨?_, ?_⟩
  · have t := (c6_type_rejection hJson innerNop rDeleteXml [] 0 0
      (initRW hJson)).1 (by decide) (by decide) (by decide)
    exact ⟨t.1, t.2.1, t.2.2⟩
  · exact (c6_type_rejection hJson innerNop rWildAccept [] 0 0
      (initRW hJson)).2.2 (by decide)

/-- Claim C7 (counterexample): a request that both uses a disallowed method
(DELETE against allowed `["GET"]`) and declares a mismatching type gets the
406 type rejection with no `Allow` header — not the 405 method rejection —
so the method check is not evaluated first. -/
theorem c7_counterexample :
    (ServeHTTP hJsonGet innerNop rDeleteXml [] 0 0).rw.statusCode = 406
    ∧ (ServeHTTP hJsonGet innerNop rDeleteXml [] 0 0).rw.statusCode ≠ 405
    ∧ getH (ServeHTTP hJsonGet innerNop rDeleteXml [] 0 0).rw.headers "Allow" = none := by
  decide

/-- Claim C7 (amended): the accepted-type check is evaluated before the
method check, and at most one rejection path executes per request: a request
that both uses a disallowed method and declares a mismatching type receives
the 406 type rejection with the `Accept` header set and no `Allow` header,
and the inner handler is never invoked. -/
theorem c7_type_check_first (h : Handler) (inner : Request → List Op)
    (r : Request) (notify : List Nat) (now d : Nat) (l : List String)
    (hall : h.allow = some l) (hm : l.contains r.method = false)
    (ht : typeCheckRejects h r = true) :
    (ServeHTTP h inner r notify now d).rw.statusCode = 406
    ∧ getH (ServeHTTP h inner r notify now d).rw.headers "Accept" = some h.accept
    ∧ getH (ServeHTTP h inner r notify now d).rw.headers "Allow" = none
    ∧ (ServeHTTP h inner r notify now d).innerInvoked = false := by
  simp only [ServeHTTP, serveRequest, ht, if_true]
  simp [recoverStep, WriteHeader, HeaderSet, initRW, setH, getH]

/-- Claim C7 (witness): DELETE with `Content-Type: text/xml` against the
JSON-only, GET-only handler: 406, `Accept: application/json`, no `Allow`
header, inner handler not invoked. -/
theorem c7_type_check_first_witness :
    (ServeHTTP hJsonGet innerNop rDeleteXml [3] 2 2).rw.statusCode = 406
    ∧ getH (ServeHTTP hJsonGet innerNop rDeleteXml [3] 2 2).rw.headers "Accept" =
        some "application/json"
    ∧ getH (ServeHTTP hJsonGet innerNop rDeleteXml [3] 2 2).rw.headers "Allow" = none
    ∧ (ServeHTTP hJsonGet innerNop rDeleteXml [3] 2 2).innerInvoked = false := by
  have t := c7_type_check_first hJsonGet innerNop rDeleteXml [3] 2 2 ["GET"]
    (by decide) (by decide) (by decide)
  exact ⟨t.1, t.2.1, t.2.2.1, t.2.2.2⟩

/-- Claim C8 (counterexample): when `Allow` was called by spreading an empty
non-nil slice, the allowed-methods set is empty, yet a GET request is
rejected with 405 and the inner handler is never reached — the empty set
does not allow all methods. -/
theorem c8_counterexample :
    (ServeHTTP hEmptyAllow innerNop rPlain [] 0 0).rw.statusCode = 405
    ∧ (ServeHTTP hEmptyAllow innerNop rPlain [] 0 0).innerInvoked = false := by
  decide

/-- Claim C8 (amended): only the nil (unset) allowed-methods slice allows
all: after `Allow` with zero arguments — which passes the nil slice — every
request that passes the type check reaches the inner handler; after `Allow`
with an empty non-nil slice, every request is rejected with 405 and the
inner handler is never invoked. -/
theorem c8_nil_allows_all (h0 : Handler) (inner : Request → List Op)
    (r : Request) (notify : List Nat) (now d : Nat) :
    (typeCheckRejects (Allow h0 none) r = false →
       (ServeHTTP (Allow h0 none) inner r notify now d).innerInvoked = true)
    ∧ (typeCheckRejects (Allow h0 (some [])) r = false →
       (ServeHTTP (Allow h0 (some [])) inner r notify now d).rw.statusCode = 405
       ∧ (ServeHTTP (Allow h0 (some [])) inner r notify now d).innerInvoked = false) := by
  refine ⟨?_, ?_⟩
  · intro ht
    simp only [ServeHTTP, serveRequest, ht, Bool.false_eq_true, if_false,
      methodStage_none (Allow h0 none) inner (initRW (Allow h0 none)) r rfl]
  · intro ht
    simp only [ServeHTTP, serveRequest, ht, Bool.false_eq_true, if_false,
      methodStage_reject (Allow h0 (some [])) inner
        (initRW (Allow h0 (some []))) r [] rfl rfl]
    simp [recoverStep, WriteHeader]

/-- Claim C8 (witness): with `Allow` called with zero methods (nil slice) a
GET request reaches the inner handler; with an empty non-nil slice the same
request gets 405. -/
theorem c8_nil_allows_all_witness :
    (ServeHTTP hNilAllow innerNop rPlain [] 0 0).innerInvoked = true
    ∧ (ServeHTTP hEmptyAllow innerNop rPlain [] 0 0).rw.statusCode = 405 := by
  have t := c8_nil_allows_all (NewHandler "") innerNop rPlain [] 0 0
  exact ⟨t.1 (by decide), (t.2 (by decide)).1⟩

theorem str_append_regroup (a p e q b n : String) :
    a ++ (((p ++ e) ++ q ++ b) ++ n) = (a ++ p) ++ (e ++ q) ++ (b ++ n) := by
  simp [String.append_assoc]

theorem broadcast_some_of_room (chans : List Chan)
    (hall : ∀ c ∈ chans, c.queued < c.cap) :
    (broadcast chans).isSome = true := by
  induction chans with
  | nil => rfl
  | cons a t ih =>
      have ha : chanSend a = some { a with queued := a.queued + 1 } := by
        simp [chanSend, hall a (by simp)]
      simp [broadcast, ha, Option.isSome_map,
        ih (fun c hc => hall c (by simp [hc]))]

theorem broadcast_none_of_full (chans : List Chan) (c : Chan) (hc : c ∈ chans)
    (hfull : c.cap ≤ c.queued) : broadcast chans = none := by
  induction chans with
  | nil => cases hc
  | cons a t ih =>
      rcases List.mem_cons.mp hc with rfl | hmem
      · have hs : chanSend c = none := by
          simp only [chanSend, ite_eq_right_iff]
          intro hlt
          omega
        simp [broadcast, hs]
      · cases hsa : chanSend a with
        | none => simp [broadcast, hsa]
        | some a2 => simp [broadcast, hsa, ih hmem]

/-- Claim C9: the error-writing helper with configured content type
`application/json` produces a body containing `"error":` followed by the
JSON-quoted message (the whole body being the quoted message wrapped in the
error object plus newline); with `text/html` the HTML-entity-escaped
message; with `text/plain` or any other (unrecognized) type the message
prefixed by `error: `; and in every case it sets the given status code on
the response. -/
theorem c9_error_formatter (rw : RespState) (err : String) (code : Nat) :
    (rw.contentType = "application/json" →
       (Error rw err code).body =
         rw.body ++ (("\x7b\"error\":" ++ goQuoteToASCII err ++ "\x7d") ++ "\n")
       ∧ ∃ pre post, (Error rw err code).body =
           pre ++ ("\"error\":" ++ goQuoteToASCII err) ++ post)
    ∧ (rw.contentType = "text/html" →
       (Error rw err code).body = rw.body ++ (htmlEscapeString err ++ "\n"))
    ∧ (rw.contentType ≠ "application/json" → rw.contentType ≠ "text/html" →
       (Error rw err code).body = rw.body ++ (("error: " ++ err) ++ "\n"))
    ∧ (Error rw err code).statusCode = code := by
  refine ⟨?_, ?_, ?_, ?_⟩
  · intro hj
    have hbody : (Error rw err code).body =
        rw.body ++ (("\x7b\"error\":" ++ goQuoteToASCII err ++ "\x7d") ++ "\n") := by
      simp [Error, httpError, Write, WriteHeader, HeaderSet, hj]
    refine ⟨hbody, rw.body ++ "\x7b", "\x7d" ++ "\n", ?_⟩
    exact hbody.trans
      (str_append_regroup rw.body "\x7b" "\"error\":" (goQuoteToASCII err) "\x7d" "\n")
  · intro hh
    simp [Error, httpError, Write, WriteHeader, HeaderSet, hh]
  · intro hj hh
    simp [Error, httpError, Write, WriteHeader, HeaderSet, hj, hh]
  · simp [Error, httpError, Write, WriteHeader, HeaderSet]

/-- Claim C9 (witness): `Error` with message "oops!" and code 500 yields
status 500 and body `{"error":"oops!"}` plus newline under
`application/json`; an HTML-escaped body under `text/html`; and the
`error: `-prefixed body under `text/plain` and under no recognized type. -/
theorem c9_error_formatter_witness :
    (Error rwJson "oops!" 500).statusCode = 500
    ∧ (Error rwJson "oops!" 500).body = "\x7b\"error\":\"oops!\"\x7d\n"
    ∧ (Error rwHtml "a<b" 500).body = "a&lt;b\n"
    ∧ (Error rwPlainCT "oops!" 500).body = "error: oops!\n"
    ∧ (Error rwEmpty "oops!" 500).body = "error: oops!\n" := by
  refine ⟨(c9_error_formatter rwJson "oops!" 500).2.2.2, ?_, ?_, ?_, ?_⟩
  · exact (((c9_error_formatter rwJson "oops!" 500).1 rfl).1).trans (by decide)
  · exact ((c9_error_formatter rwHtml "a<b" 500).2.1 rfl).trans (by decide)
  · exact ((c9_error_formatter rwPlainCT "oops!" 500).2.2.1 (by decide)
      (by decide)).trans (by decide)
  · exact ((c9_error_formatter rwEmpty "oops!" 500).2.2.1 (by decide)
      (by decide)).trans (by decide)

/-- Claim C10 (counterexample): publishing to a registered subscriber
channel that is full and unread does block: with a single registered
channel of capacity 1 already holding one unread event, the broadcast
performed by `logRequest` cannot complete, so the handling of the request
is delayed for as long as no consumer reads. -/
theorem c10_blocking_counterexample :
    (broadcast [{ cap := 1, queued := 1 }]).isSome = false := by
  decide

/-- Claim C10 (amended): the publish step is a plain blocking Go channel
send per subscriber: it completes precisely when no registered channel is
full — if every channel has buffer room the broadcast completes, while a
single full channel with no active receiver blocks it (and with it the
completion of `ServeHTTP`). The default sink registered at `init` has
capacity 1, starts empty, and is drained by a dedicated consumer, so the
default configuration does not block while that consumer keeps up. -/
theorem c10_blocking_send (chans : List Chan) :
    ((∀ c ∈ chans, c.queued < c.cap) → (broadcast chans).isSome = true)
    ∧ (∀ c, c ∈ chans → c.cap ≤ c.queued → broadcast chans = none)
    ∧ (broadcast [defaultSink]).isSome = true :=
  ⟨fun hall => broadcast_some_of_room chans hall,
   fun c hc hfull => broadcast_none_of_full chans c hc hfull,
   by decide⟩

/-- Claim C10 (witness): a registry with one channel with free room lets
the broadcast complete, and a registry containing a full channel blocks. -/
theorem c10_blocking_send_witness :
    (broadcast [{ cap := 2, queued := 1 }]).isSome = true
    ∧ broadcast [{ cap := 1, queued := 1 }] = none := by
  refine ⟨(c10_blocking_send [{ cap := 2, queued := 1 }]).1 (by decide), ?_⟩
  exact (c10_blocking_send [{ cap := 1, queued := 1 }]).2.1
    { cap := 1, queued := 1 } (by decide) (by decide)

end Httputil
